import Mathlib

/-!
DirWatcher: `DirectoryWatcher.cpp`

A shallow embedding of the class `DirectoryWatcher` of `src/DirectoryWatcher.cpp`
and the properties of its event loop that the specification states.

Conventions of the embedding.

* Narrow and wide strings are lists of code units (`Nat`). `isProcessableFile`
  compares the code units of the extension, which is exact for ASCII extensions. The
  argument of the callback goes through `path_string`, the wide to narrow conversion of
  `path::string()`: the identity on ASCII names, and outside ASCII what the code page
  of the environment gives, which can fail.
* Root names of paths (drive designators, UNC prefixes) are not modelled; the
  theorems that state the value of a joined path carry that as a hypothesis.
* The operating system is an environment `Env`: the k-th call of
  `ReadDirectoryChangesW` and of `GetQueuedCompletionStatus` returns what the
  environment says, including the bytes the system stored into `event_buf_`.
* The user callback can act on the watcher only through its public interface; the
  environment says, per invocation, whether the callback calls `stop()`.
* `event_buf_` is byte addressed memory of `event_buf_size` bytes; an access outside
  it is undefined behaviour and ends the run with `Run.undefinedBehaviour`.
* An exception that leaves `eventSend` ends the run with `Run.exception`: nothing in
  the class catches it.
* Loops that the source does not bound take a `fuel` argument that counts
  iterations; `Run.outOfFuel` means the loop was still running.
* The `size_t` counters are unbounded naturals: they start at zero and grow by one
  per record, so the wrap at `SIZE_MAX` is out of reach.
-/

namespace DirWatcher

/-! ## Strings and paths (`std::string`, `std::filesystem::path`) -/

/-- A string or path as its list of code units. -/
abbrev Path := List Nat

/-- The code units of a Lean string literal, for readable test data. -/
def str (s : String) : Path := s.toList.map Char.toNat

/-- The lambda of `isProcessableFile`: `std::tolower` of an `unsigned char` in the
default "C" locale maps `A`..`Z` to `a`..`z` and nothing else. -/
def tolower (c : Nat) : Nat := if 65 ≤ c ∧ c ≤ 90 then c + 32 else c

/-- Directory separators of a Windows path: `/` and `\`. -/
def isSeparator (c : Nat) : Bool := c == 47 || c == 92

/-- The `path::preferred_separator` of Windows, `\`. -/
def preferred_separator : Nat := 92

/-- The `path::filename()`: the code units after the last directory separator.
Root names (drive letters, UNC prefixes) are not modelled. -/
def filename (p : Path) : Path := (p.reverse.takeWhile (fun c => !isSeparator c)).reverse

/-- The suffix of `cs` that starts at its rightmost period, `[]` when there is none. -/
def lastDotSuffix : List Nat → List Nat
  | [] => []
  | c :: cs =>
    match lastDotSuffix cs with
    | [] => if c = 46 then c :: cs else []
    | r => r

/-- The `path::extension()` of the C++ standard: when the file name has a period and
is neither `.` nor `..`, the substring that starts at the rightmost period; a period
that is the first character of the file name is ignored. -/
def extension (p : Path) : Path :=
  match filename p with
  | [] => []
  | c :: rest => if c :: rest = [46, 46] then [] else lastDotSuffix rest

/-- The `path::has_filename()`: the path does not end in a separator and is not empty. -/
def hasFilename (p : Path) : Bool :=
  match p.getLast? with
  | none => false
  | some c => !isSeparator c

/-- The `path::has_root_directory()` of a path without root name: the path starts
with a separator. -/
def hasRootDirectory (p : Path) : Bool :=
  match p with
  | [] => false
  | c :: _ => isSeparator c

/-- The letters `A`..`Z` and `a`..`z`. -/
def isLetter (c : Nat) : Bool :=
  (decide (65 ≤ c) && decide (c ≤ 90)) || (decide (97 ≤ c) && decide (c ≤ 122))

/-- The path starts with a drive designator, a letter and a colon. -/
def hasDrivePrefix (p : Path) : Bool :=
  match p with
  | c :: 58 :: _ => isLetter c
  | _ => false

/-- The `operator/` of `std::filesystem::path`. A right operand that starts with a
separator or with a drive designator replaces the left operand; any other right
operand, one that is `plainRelative`, is appended, after a separator when the left
operand has a file name. Root names are not modelled beyond that. For a
`plainRelative` right operand the result is that of the library for every left
operand but a bare drive designator such as `C:`, after which the library inserts no
separator. For the other right operands the library differs in two cases: it keeps
the root name of the left operand in front of a right operand that has a root
directory and no root name, and it appends a right operand that is relative to the
drive of the left operand. -/
def pathJoin (d n : Path) : Path :=
  if hasRootDirectory n || hasDrivePrefix n then n
  else if hasFilename d then d ++ preferred_separator :: n else d ++ n

/-! ## Windows constants and the layout of `FILE_NOTIFY_INFORMATION` -/

/-- Windows SDK: `FILE_ACTION_ADDED`. -/
def FILE_ACTION_ADDED : Nat := 1
/-- Windows SDK: `FILE_ACTION_REMOVED`. -/
def FILE_ACTION_REMOVED : Nat := 2
/-- Windows SDK: `FILE_ACTION_MODIFIED`. -/
def FILE_ACTION_MODIFIED : Nat := 3
/-- Windows SDK: `FILE_ACTION_RENAMED_OLD_NAME`. -/
def FILE_ACTION_RENAMED_OLD_NAME : Nat := 4
/-- Windows SDK: `FILE_ACTION_RENAMED_NEW_NAME`. -/
def FILE_ACTION_RENAMED_NEW_NAME : Nat := 5
/-- Windows SDK: `ERROR_ACCESS_DENIED`. -/
def ERROR_ACCESS_DENIED : Nat := 5
/-- Windows SDK: `ERROR_IO_PENDING`. -/
def ERROR_IO_PENDING : Nat := 997
/-- Windows SDK: `INVALID_HANDLE_VALUE`, the all-ones pointer of a 64-bit build. -/
def INVALID_HANDLE_VALUE : Nat := 2 ^ 64 - 1
/-- The null handle. -/
def NULL : Nat := 0

/-- Windows SDK: `sizeof(FILE_NOTIFY_INFORMATION)`, three `DWORD`s and one `WCHAR`
padded to a multiple of four. -/
def sizeof_FILE_NOTIFY_INFORMATION : Nat := 16

/-- One record of the notification buffer as `eventSend` reads it: the three `DWORD`
fields at byte offsets 0, 4 and 8 and the `FileNameLength / 2` code units of
`FileName` at byte offset 12. -/
structure FILE_NOTIFY_INFORMATION where
  NextEntryOffset : Nat
  Action : Nat
  FileNameLength : Nat
  FileName : List Nat

/-! ## Reading the notification buffer -/

/-- One byte of a buffer of `size` bytes; `none` outside the buffer. -/
def readByte (buf : Nat → Nat) (size : Nat) (i : Nat) : Option Nat :=
  if i < size then some (buf i % 256) else none

/-- A little-endian `DWORD` at byte offset `off`. -/
def readDWORD (buf : Nat → Nat) (size : Nat) (off : Nat) : Option Nat :=
  match readByte buf size off, readByte buf size (off + 1), readByte buf size (off + 2),
    readByte buf size (off + 3) with
  | some b0, some b1, some b2, some b3 => some (b0 + 256 * b1 + 65536 * b2 + 16777216 * b3)
  | _, _, _, _ => none

/-- The `n` little-endian `WCHAR`s that start at byte offset `off`. -/
def readWCHARs (buf : Nat → Nat) (size : Nat) : Nat → Nat → Option (List Nat)
  | _, 0 => some []
  | off, n + 1 =>
    match readByte buf size off, readByte buf size (off + 1), readWCHARs buf size (off + 2) n with
    | some lo, some hi, some rest => some ((lo + 256 * hi) :: rest)
    | _, _, _ => none

/-- The reads one loop iteration of `eventSend` makes of the record at byte offset
`off`: `FileNameLength` and the `FileNameLength / 2` code units of `FileName`
(line 136), `Action` (line 137) and `NextEntryOffset` (line 143). `none` when one of
them leaves the buffer. -/
def readRecord (buf : Nat → Nat) (size : Nat) (off : Nat) : Option FILE_NOTIFY_INFORMATION :=
  match readDWORD buf size (off + 8) with
  | none => none
  | some len =>
    match readWCHARs buf size (off + 12) (len / 2), readDWORD buf size (off + 4),
      readDWORD buf size off with
    | some name, some action, some next =>
      some { NextEntryOffset := next, Action := action, FileNameLength := len, FileName := name }
    | _, _, _ => none

/-! ## The watcher -/

/-- The data members of `class DirectoryWatcher`, followed by the observation
fields of the embedding: the arguments the callback was invoked with, the byte
offsets of the records `eventSend` visited, and how many read and wait requests were
issued. -/
structure DirectoryWatcher where
  input_directory_ : Path
  file_types_ : List (List Nat)
  path_handle_ : Nat
  completion_token_ : Nat
  event_buf_len_ready_ : Nat
  is_valid_ : Bool
  event_buf_ : Nat → Nat
  event_buf_size : Nat
  processed_files_count : Nat
  ignored_files_count : Nat
  callback_log : List Path
  visited : List Nat
  reads_issued : Nat
  waits_issued : Nat

/-- What one call of `ReadDirectoryChangesW` does: its return value, the value it
left in `bytes_returned`, what `GetLastError()` reports after it, and the bytes it
stored at the start of the buffer. -/
structure ReadDirectoryChangesResult where
  read_ok : Bool
  bytes_returned : Nat
  last_error : Nat
  written : List Nat

/-- What one call of `GetQueuedCompletionStatus` does: its return value, the value
it stored through `lpNumberOfBytes` (if it stored one), whether `overlap` came back
non-null, and the bytes the completed read stored at the start of the buffer. -/
structure CompletionStatus where
  complete : Bool
  bytes : Option Nat
  overlap : Bool
  written : List Nat

/-- The environment of a watcher: the operating system and the callback.
`WideCharToMultiByte` is the conversion of a wide string that has a code unit outside
ASCII to the narrow encoding of the process, `none` when the system reports a
character that cannot be converted. -/
structure Env where
  ReadDirectoryChangesW : Nat → ReadDirectoryChangesResult
  GetQueuedCompletionStatus : Nat → CompletionStatus
  callback_stops : Nat → Path → Bool
  WideCharToMultiByte : List Nat → Option (List Nat)

/-- The `path::string()` of a wide path: the narrow string, or `none` when the
conversion fails and `string()` throws. Every narrow encoding of Windows agrees with
ASCII on the code units below 128. -/
def path_string (env : Env) (p : Path) : Option (List Nat) :=
  if p.all (fun c => decide (c < 128)) then some p else env.WideCharToMultiByte p

/-- The outcome of running code that can loop, access memory out of range or throw. -/
inductive Run (α : Type) where
  | ok : α → Run α
  | undefinedBehaviour : Run α
  | outOfFuel : Run α
  | exception : Run α

/-- Sequencing of runs. -/
def Run.bind {α β : Type} (r : Run α) (f : α → Run β) : Run β :=
  match r with
  | .ok a => f a
  | .undefinedBehaviour => .undefinedBehaviour
  | .outOfFuel => .outOfFuel
  | .exception => .exception

namespace DirectoryWatcher

/-- The buffer after the system stored `written` at its start: bytes beyond what
was written, and beyond the capacity, keep their old value. -/
def store (s : DirectoryWatcher) (written : List Nat) : Nat → Nat :=
  fun i => if i < s.event_buf_size then (written.getD i (s.event_buf_ i)) else s.event_buf_ i

/-- `DirectoryWatcher::hasEvent`. -/
def hasEvent (s : DirectoryWatcher) : Bool := s.event_buf_len_ready_ != 0

/-- `DirectoryWatcher::isValidAction`. -/
def isValidAction (action : Nat) : Bool :=
  action == FILE_ACTION_ADDED || action == FILE_ACTION_RENAMED_NEW_NAME

/-- `DirectoryWatcher::isProcessableFile`: the extension without its first
character, lowercased, is looked up in `file_types_`. -/
def isProcessableFile (file_types_ : List (List Nat)) (path : Path) : Bool :=
  let extension := ((extension path).drop 1).map tolower
  decide (extension ∈ file_types_)

/-- `DirectoryWatcher::stop`. -/
def stop (s : DirectoryWatcher) : DirectoryWatcher := { s with is_valid_ := false }

/-- `DirectoryWatcher::eventRecv`: the result and the state after it. -/
def eventRecv (env : Env) (s : DirectoryWatcher) : Bool × DirectoryWatcher :=
  let r := env.ReadDirectoryChangesW s.reads_issued
  let s1 := { s with
    event_buf_len_ready_ := 0
    event_buf_ := s.store r.written
    reads_issued := s.reads_issued + 1 }
  if s1.event_buf_size != 0 && r.read_ok then
    (true, { s1 with event_buf_len_ready_ := r.bytes_returned % 2 ^ 32 })
  else if r.last_error = ERROR_IO_PENDING then
    (false, { s1 with event_buf_len_ready_ := 0, is_valid_ := false })
  else
    (false, s1)

/-- Whether the body of the loop of `eventSend` throws for the record `r`: the record
passes the test of line 137 and `filename.string()` of line 138 fails. -/
def throws (env : Env) (s : DirectoryWatcher) (r : FILE_NOTIFY_INFORMATION) : Bool :=
  let filename := pathJoin s.input_directory_ r.FileName
  isValidAction r.Action && isProcessableFile s.file_types_ filename
    && (path_string env filename).isNone

/-- The state in which control leaves the body of the loop of `eventSend` for the
record `r` (lines 136 to 142): the callback is invoked with `filename.string()` and
`processed_files_count` incremented, or `ignored_files_count` is incremented. A
callback that calls `stop()` clears `is_valid_`. When `filename.string()` throws,
the body is left before the callback is invoked and the state is as it was. -/
def dispatch (env : Env) (s : DirectoryWatcher) (r : FILE_NOTIFY_INFORMATION) : DirectoryWatcher :=
  let filename := pathJoin s.input_directory_ r.FileName
  if isValidAction r.Action && isProcessableFile s.file_types_ filename then
    match path_string env filename with
    | some p =>
      { s with
        callback_log := s.callback_log ++ [p]
        is_valid_ := s.is_valid_ && !env.callback_stops s.callback_log.length p
        processed_files_count := s.processed_files_count + 1 }
    | none => s
  else
    { s with ignored_files_count := s.ignored_files_count + 1 }

/-- The `while` loop of `eventSend` with `buf` at byte offset `off` of the buffer.
`buf` is a `FILE_NOTIFY_INFORMATION*`, so both sides of the loop condition
`buf + sizeof(FILE_NOTIFY_INFORMATION) <= buf + event_buf_len_ready_` advance `buf`
by a count of whole records. -/
def eventSendLoop (env : Env) : Nat → Nat → DirectoryWatcher → Run DirectoryWatcher
  | 0, _, _ => .outOfFuel
  | fuel + 1, off, s =>
    if off + sizeof_FILE_NOTIFY_INFORMATION * sizeof_FILE_NOTIFY_INFORMATION
        ≤ off + s.event_buf_len_ready_ * sizeof_FILE_NOTIFY_INFORMATION then
      match readRecord s.event_buf_ s.event_buf_size off with
      | none => .undefinedBehaviour
      | some r =>
        if throws env s r then .exception
        else
          let s1 := dispatch env { s with visited := s.visited ++ [off] } r
          if r.NextEntryOffset = 0 then .ok s1
          else eventSendLoop env fuel (off + r.NextEntryOffset) s1
    else .ok s

/-- `DirectoryWatcher::eventSend`. Every iteration but the last moves `buf` forward
inside the vector, so `event_buf_size + 1` iterations are never used up. -/
def eventSend (env : Env) (s : DirectoryWatcher) : Run (Bool × DirectoryWatcher) :=
  if s.is_valid_ then
    (eventSendLoop env (s.event_buf_size + 1) 0 s).bind fun s1 => .ok (true, s1)
  else .ok (false, s)

/-- The first loop of `watch` (lines 74 to 76): `eventSend` is repeated while the
watcher is valid and the ready length is not zero. -/
def watchDrain (env : Env) : Nat → DirectoryWatcher → Run DirectoryWatcher
  | 0, s => if s.is_valid_ && s.hasEvent then .outOfFuel else .ok s
  | fuel + 1, s =>
    if s.is_valid_ && s.hasEvent then
      (eventSend env s).bind fun r => watchDrain env fuel r.2
    else .ok s

/-- `DirectoryWatcher::handleEvents`. -/
def handleEvents (env : Env) : Nat → DirectoryWatcher → Run DirectoryWatcher
  | 0, s => if s.is_valid_ && s.hasEvent then .outOfFuel else .ok s
  | fuel + 1, s =>
    if s.is_valid_ && s.hasEvent then
      (eventSend env s).bind fun r => handleEvents env fuel (eventRecv env r.2).2
    else .ok s

/-- The state after the call of `GetQueuedCompletionStatus` in the wait loop
(line 82): the call stores the transferred length into `event_buf_len_ready_`. -/
def completion (s : DirectoryWatcher) (c : CompletionStatus) : DirectoryWatcher :=
  { s with
    event_buf_len_ready_ :=
      match c.bytes with
      | some n => n % 2 ^ 32
      | none => s.event_buf_len_ready_
    event_buf_ := s.store c.written
    waits_issued := s.waits_issued + 1 }

/-- The body of the wait loop of `watch` (lines 79 to 91). -/
def waitOnce (env : Env) (fuel : Nat) (s : DirectoryWatcher) : Run DirectoryWatcher :=
  let c := env.GetQueuedCompletionStatus s.waits_issued
  let s1 := s.completion c
  let s2 := if c.complete && s1.event_buf_len_ready_ == 0 then (eventRecv env s1).2 else s1
  if c.complete && c.overlap then handleEvents env fuel s2 else .ok s2

/-- The wait loop of `watch` (lines 78 to 92); `inner` is the fuel of each call of
`handleEvents`. -/
def watchLoop (env : Env) (inner : Nat) : Nat → DirectoryWatcher → Run DirectoryWatcher
  | 0, s => if s.is_valid_ then .outOfFuel else .ok s
  | fuel + 1, s =>
    if s.is_valid_ then (waitOnce env inner s).bind (watchLoop env inner fuel) else .ok s

/-- `DirectoryWatcher::watch`: the value returned and the state on return. -/
def watch (env : Env) (fuel : Nat) (s : DirectoryWatcher) : Run (Bool × DirectoryWatcher) :=
  if s.is_valid_ then
    let s1 := (eventRecv env s).2
    (watchDrain env fuel s1).bind fun s2 =>
      (watchLoop env fuel fuel s2).bind fun s3 => .ok (true, s3)
  else .ok (false, s)

end DirectoryWatcher

/-- What the three system calls of the constructor return: `CreateFileA`, the
`CreateIoCompletionPort` that makes a new port, and the `CreateIoCompletionPort`
that binds the directory handle to it. -/
structure Acquisition where
  CreateFileA : Nat
  newPort : Nat
  bindPort : Nat

/-- The constructor `DirectoryWatcher::DirectoryWatcher` with the default member
initialisers of the class. -/
def DirectoryWatcher.construct (os : Acquisition) (input_directory : Path)
    (file_types : List (List Nat)) : DirectoryWatcher :=
  let path_handle_ := os.CreateFileA
  let completion_token_ :=
    if path_handle_ ≠ INVALID_HANDLE_VALUE then os.newPort else INVALID_HANDLE_VALUE
  let is_valid_ :=
    if completion_token_ ≠ INVALID_HANDLE_VALUE then decide (os.bindPort ≠ NULL) else false
  { input_directory_ := input_directory
    file_types_ := file_types
    path_handle_ := path_handle_
    completion_token_ := completion_token_
    event_buf_len_ready_ := 0
    is_valid_ := is_valid_
    event_buf_ := fun _ => 0
    event_buf_size := 64 * 1024
    processed_files_count := 0
    ignored_files_count := 0
    callback_log := []
    visited := []
    reads_issued := 0
    waits_issued := 0 }

/-- The `explicit operator bool` of the class. -/
def DirectoryWatcher.toBool (s : DirectoryWatcher) : Bool := s.is_valid_

/-- The operations that change a watcher: the public `watch` and `stop`, the private
`eventRecv`, `eventSend` and `handleEvents`, and the two steps inside them that touch
the state, one record dispatched to the callback and one completion stored. -/
inductive Op where
  | watch (fuel : Nat)
  | stop
  | eventRecv
  | eventSend
  | handleEvents (fuel : Nat)
  | dispatch (r : FILE_NOTIFY_INFORMATION)
  | completion (c : CompletionStatus)

/-- The state after one operation. -/
def Op.run (env : Env) : Op → DirectoryWatcher → Run DirectoryWatcher
  | .watch fuel, s => (s.watch env fuel).bind fun r => .ok r.2
  | .stop, s => .ok s.stop
  | .eventRecv, s => .ok (s.eventRecv env).2
  | .eventSend, s => (s.eventSend env).bind fun r => .ok r.2
  | .handleEvents fuel, s => s.handleEvents env fuel
  | .dispatch r, s => .ok (s.dispatch env r)
  | .completion c, s => .ok (s.completion c)

/-- The state after a sequence of operations. -/
def runOps (env : Env) : List Op → DirectoryWatcher → Run DirectoryWatcher
  | [], s => .ok s
  | op :: ops, s => (op.run env s).bind (runOps env ops)

/-! ## Test data -/

/-- The four bytes of a little-endian `DWORD`. -/
def dword (n : Nat) : List Nat := [n % 256, n / 256 % 256, n / 65536 % 256, n / 16777216 % 256]

/-- The bytes of one record with the given header fields and name; the name is
followed by zero bytes up to `size` bytes. -/
def recordBytes (next action : Nat) (name : Path) (size : Nat) : List Nat :=
  let bytes := dword next ++ dword action ++ dword (2 * name.length)
    ++ name.flatMap (fun c => [c % 256, c / 256 % 256])
  bytes ++ List.replicate (size - bytes.length) 0

/-- A valid watcher of directory `D` with the given extension list whose buffer
holds `bytes` followed by zeros, `ready` of them reported as filled. -/
def watcherWith (file_types : List (List Nat)) (bytes : List Nat) (ready : Nat) : DirectoryWatcher :=
  { DirectoryWatcher.construct { CreateFileA := 8, newPort := 12, bindPort := 12 } (str "D") file_types with
    event_buf_ := fun i => bytes.getD i 0
    event_buf_len_ready_ := ready }

/-- An environment in which no read completes at once, every wait times out, the
callback never calls `stop()`, and no character outside ASCII has a narrow form. -/
def quietEnv : Env :=
  { ReadDirectoryChangesW := fun _ => { read_ok := true, bytes_returned := 0, last_error := 0, written := [] }
    GetQueuedCompletionStatus := fun _ => { complete := false, bytes := none, overlap := false, written := [] }
    callback_stops := fun _ _ => false
    WideCharToMultiByte := fun _ => none }

/-- The condition under which the specification expects a record to be reported:
its action is `FILE_ACTION_ADDED` or `FILE_ACTION_RENAMED_NEW_NAME` and the
lowercased extension of its file name, without the period, is in the list. -/
def accepted (file_types : List (List Nat)) (r : FILE_NOTIFY_INFORMATION) : Bool :=
  (r.Action == FILE_ACTION_ADDED || r.Action == FILE_ACTION_RENAMED_NEW_NAME)
    && decide (((extension r.FileName).drop 1).map tolower ∈ file_types)

/-- The body of the first loop of `watch` run `n` times in a row. -/
def eventSendTimes (env : Env) : Nat → DirectoryWatcher → Run DirectoryWatcher
  | 0, s => .ok s
  | n + 1, s => (s.eventSend env).bind fun r => eventSendTimes env n r.2

/-- The buffer of the end-to-end scenario: `a.dat` added, `b.txt` added, `c.dat`
renamed to, `a.dat` removed; four records of 24, 24, 24 and 22 bytes. -/
def scenarioBytes : List Nat :=
  recordBytes 24 FILE_ACTION_ADDED (str "a.dat") 24
    ++ recordBytes 24 FILE_ACTION_ADDED (str "b.txt") 24
    ++ recordBytes 24 FILE_ACTION_RENAMED_NEW_NAME (str "c.dat") 24
    ++ recordBytes 0 FILE_ACTION_REMOVED (str "a.dat") 22

/-- A buffer whose first record, `a.dat` added, declares its successor at byte 48,
and whose bytes from 48 on still hold an old record, `old.dat` added. -/
def staleBytes : List Nat :=
  recordBytes 48 FILE_ACTION_ADDED (str "a.dat") 48
    ++ recordBytes 0 FILE_ACTION_ADDED (str "old.dat") 26

/-- A buffer whose only record, `report.dat` added, has 32 bytes, of which the system
reports 16 as filled: the header and the first two code units of the name. -/
def cutBytes : List Nat := recordBytes 0 FILE_ACTION_ADDED (str "report.dat") 32

/-- A buffer whose only record declares its successor at byte 70000, beyond the
64 KiB of the vector. -/
def wildBytes : List Nat := recordBytes 70000 FILE_ACTION_ADDED (str "a.dat") 24

/-- An environment in which every read request is rejected with
`ERROR_ACCESS_DENIED`, every wait times out, and the callback never calls
`stop()`. -/
def deniedEnv : Env :=
  { ReadDirectoryChangesW := fun _ =>
      { read_ok := false, bytes_returned := 0, last_error := ERROR_ACCESS_DENIED, written := [] }
    GetQueuedCompletionStatus := fun _ =>
      { complete := false, bytes := none, overlap := false, written := [] }
    callback_stops := fun _ _ => false
    WideCharToMultiByte := fun _ => none }

/-- An environment in which every read request completes at once with one record of
22 bytes, `a.dat` added, every wait times out, and the callback never calls
`stop()`. -/
def immediateEnv : Env :=
  { ReadDirectoryChangesW := fun _ =>
      { read_ok := true, bytes_returned := 22, last_error := 0
        written := recordBytes 0 FILE_ACTION_ADDED (str "a.dat") 22 }
    GetQueuedCompletionStatus := fun _ =>
      { complete := false, bytes := none, overlap := false, written := [] }
    callback_stops := fun _ _ => false
    WideCharToMultiByte := fun _ => none }

/-- An environment in which every read request comes back with `ERROR_IO_PENDING`,
every wait times out, and the callback never calls `stop()`. -/
def pendingEnv : Env :=
  { ReadDirectoryChangesW := fun _ =>
      { read_ok := false, bytes_returned := 0, last_error := ERROR_IO_PENDING, written := [] }
    GetQueuedCompletionStatus := fun _ =>
      { complete := false, bytes := none, overlap := false, written := [] }
    callback_stops := fun _ _ => false
    WideCharToMultiByte := fun _ => none }

/-! ## Lemmas on paths -/

theorem takeWhile_append_stop (f : Nat → Bool) (xs ys : List Nat) (y : Nat) (hy : f y = false) :
    (xs ++ y :: ys).takeWhile f = xs.takeWhile f := by
  induction xs with
  | nil => simp [List.takeWhile_cons, hy]
  | cons x xs ih =>
    simp only [List.cons_append, List.takeWhile_cons, ih]

theorem filename_append_sep (d n : Path) (c : Nat) (hc : isSeparator c = true) :
    filename (d ++ c :: n) = filename n := by
  simp only [filename, List.reverse_append, List.reverse_cons, List.append_assoc,
    List.singleton_append]
  rw [takeWhile_append_stop _ _ _ _ (by simp [hc])]

theorem filename_pathJoin (d n : Path) : filename (pathJoin d n) = filename n := by
  unfold pathJoin
  split
  · rfl
  split
  · exact filename_append_sep d n preferred_separator (by decide)
  · rename_i h
    rcases List.eq_nil_or_concat d with hd | ⟨d', c, hd⟩
    · simp [hd]
    · subst hd
      have hc : isSeparator c = true := by
        simpa [hasFilename] using h
      rw [List.concat_eq_append, List.append_assoc, List.singleton_append]
      exact filename_append_sep d' n c hc

theorem extension_pathJoin (d n : Path) : extension (pathJoin d n) = extension n := by
  simp only [extension, filename_pathJoin]

theorem isProcessableFile_pathJoin (types : List (List Nat)) (d n : Path) :
    DirectoryWatcher.isProcessableFile types (pathJoin d n)
      = DirectoryWatcher.isProcessableFile types n := by
  simp only [DirectoryWatcher.isProcessableFile, extension_pathJoin]

theorem accepted_eq (s : DirectoryWatcher) (r : FILE_NOTIFY_INFORMATION) :
    (DirectoryWatcher.isValidAction r.Action
      && DirectoryWatcher.isProcessableFile s.file_types_ (pathJoin s.input_directory_ r.FileName))
      = accepted s.file_types_ r := by
  rw [isProcessableFile_pathJoin]
  rfl

theorem throws_eq (env : Env) (s : DirectoryWatcher) (r : FILE_NOTIFY_INFORMATION) :
    s.throws env r = (accepted s.file_types_ r
      && (path_string env (pathJoin s.input_directory_ r.FileName)).isNone) := by
  unfold DirectoryWatcher.throws
  simp only [accepted_eq]

theorem dispatch_accepted (env : Env) (s : DirectoryWatcher) (r : FILE_NOTIFY_INFORMATION)
    (p : List Nat) (h : accepted s.file_types_ r = true)
    (hp : path_string env (pathJoin s.input_directory_ r.FileName) = some p) :
    s.dispatch env r =
      { s with
        callback_log := s.callback_log ++ [p]
        is_valid_ := s.is_valid_ && !env.callback_stops s.callback_log.length p
        processed_files_count := s.processed_files_count + 1 } := by
  unfold DirectoryWatcher.dispatch
  simp only [accepted_eq, h, if_true, hp]

theorem dispatch_thrown (env : Env) (s : DirectoryWatcher) (r : FILE_NOTIFY_INFORMATION)
    (h : accepted s.file_types_ r = true)
    (hp : path_string env (pathJoin s.input_directory_ r.FileName) = none) :
    s.dispatch env r = s := by
  unfold DirectoryWatcher.dispatch
  simp only [accepted_eq, h, if_true, hp]

theorem dispatch_rejected (env : Env) (s : DirectoryWatcher) (r : FILE_NOTIFY_INFORMATION)
    (h : accepted s.file_types_ r = false) :
    s.dispatch env r = { s with ignored_files_count := s.ignored_files_count + 1 } := by
  unfold DirectoryWatcher.dispatch
  simp only [accepted_eq, h, Bool.false_eq_true, if_false]

/-- What one dispatched record leaves untouched. -/
theorem dispatch_frame (env : Env) (s : DirectoryWatcher) (r : FILE_NOTIFY_INFORMATION) :
    (s.dispatch env r).event_buf_ = s.event_buf_
      ∧ (s.dispatch env r).event_buf_size = s.event_buf_size
      ∧ (s.dispatch env r).event_buf_len_ready_ = s.event_buf_len_ready_
      ∧ (s.dispatch env r).file_types_ = s.file_types_
      ∧ (s.dispatch env r).input_directory_ = s.input_directory_
      ∧ (s.dispatch env r).visited = s.visited
      ∧ (s.dispatch env r).reads_issued = s.reads_issued
      ∧ (s.dispatch env r).waits_issued = s.waits_issued := by
  cases h : accepted s.file_types_ r
  · rw [dispatch_rejected env s r h]
    simp
  · cases hp : path_string env (pathJoin s.input_directory_ r.FileName) with
    | none =>
      rw [dispatch_thrown env s r h hp]
      simp
    | some p =>
      rw [dispatch_accepted env s r p h hp]
      simp

/-- What one dispatched record adds when its body does not throw: the converted
path of the record, if it is accepted, and one to the counter it belongs to. -/
theorem dispatch_effect (env : Env) (s : DirectoryWatcher) (r : FILE_NOTIFY_INFORMATION)
    (hthrow : s.throws env r = false) :
    ∃ ps : List (List Nat),
      (s.dispatch env r).callback_log = s.callback_log ++ ps
        ∧ ([r].filter (accepted s.file_types_)).map
            (fun r => path_string env (pathJoin s.input_directory_ r.FileName)) = ps.map some
        ∧ (s.dispatch env r).processed_files_count = s.processed_files_count +
            ([r].filter (accepted s.file_types_)).length
        ∧ (s.dispatch env r).ignored_files_count = s.ignored_files_count +
            ([r].filter (fun r => !accepted s.file_types_ r)).length := by
  cases h : accepted s.file_types_ r
  · rw [dispatch_rejected env s r h]
    exact ⟨[], by simp, by simp [h], by simp [h], by simp [h]⟩
  · cases hp : path_string env (pathJoin s.input_directory_ r.FileName) with
    | none =>
      rw [throws_eq, h, hp] at hthrow
      exact Bool.noConfusion hthrow
    | some p =>
      rw [dispatch_accepted env s r p h hp]
      exact ⟨[p], rfl, by simp [h, hp], by simp [h], by simp [h]⟩

/-- The loop of `eventSend`, when it returns: the buffer and the configuration are
untouched, and the callback log and the counters grow by what the visited records
contribute, in the order of the visit. -/
theorem eventSendLoop_spec (env : Env) :
    ∀ (fuel off : Nat) (s t : DirectoryWatcher),
      DirectoryWatcher.eventSendLoop env fuel off s = .ok t →
      (t.event_buf_ = s.event_buf_ ∧ t.event_buf_size = s.event_buf_size
        ∧ t.event_buf_len_ready_ = s.event_buf_len_ready_
        ∧ t.file_types_ = s.file_types_ ∧ t.input_directory_ = s.input_directory_
        ∧ t.reads_issued = s.reads_issued ∧ t.waits_issued = s.waits_issued)
      ∧ ∃ (offs : List Nat) (rs : List FILE_NOTIFY_INFORMATION) (ps : List (List Nat)),
          t.visited = s.visited ++ offs
          ∧ offs.filterMap (readRecord s.event_buf_ s.event_buf_size) = rs
          ∧ rs.length = offs.length
          ∧ t.callback_log = s.callback_log ++ ps
          ∧ (rs.filter (accepted s.file_types_)).map
              (fun r => path_string env (pathJoin s.input_directory_ r.FileName)) = ps.map some
          ∧ t.processed_files_count = s.processed_files_count +
              (rs.filter (accepted s.file_types_)).length
          ∧ t.ignored_files_count = s.ignored_files_count +
              (rs.filter (fun r => !accepted s.file_types_ r)).length := by
  intro fuel
  induction fuel with
  | zero =>
    intro off s t h
    simp [DirectoryWatcher.eventSendLoop] at h
  | succ n ih =>
    intro off s t h
    unfold DirectoryWatcher.eventSendLoop at h
    split at h
    · cases hr : readRecord s.event_buf_ s.event_buf_size off with
      | none => simp [hr] at h
      | some r =>
        simp only [hr] at h
        split at h
        · exact Run.noConfusion h
        · rename_i hnt
          have hthrow : DirectoryWatcher.throws env { s with visited := s.visited ++ [off] } r
              = false := by
            have : DirectoryWatcher.throws env { s with visited := s.visited ++ [off] } r
                = s.throws env r := rfl
            rw [this]
            simpa using hnt
          obtain ⟨hbuf, hsize, hlen, htypes, hdir, hvis, hreads, hwaits⟩ :=
            dispatch_frame env { s with visited := s.visited ++ [off] } r
          obtain ⟨ps, hlog, hps, hproc, hign⟩ :=
            dispatch_effect env { s with visited := s.visited ++ [off] } r hthrow
          simp only at hbuf hsize hlen htypes hdir hvis hreads hwaits hlog hps hproc hign
          split at h
          · have ht : t = DirectoryWatcher.dispatch env { s with visited := s.visited ++ [off] } r :=
              (Run.ok.inj h).symm
            subst ht
            refine ⟨⟨hbuf, hsize, hlen, htypes, hdir, hreads, hwaits⟩, [off], [r], ps, hvis, ?_,
              rfl, hlog, hps, hproc, hign⟩
            simp [hr]
          · obtain ⟨⟨tbuf, tsize, tlen, ttypes, tdir, treads, twaits⟩, offs, rs, qs, tvis, tfm,
              tlen2, tlog, tqs, tproc, tign⟩ := ih _ _ _ h
            rw [hbuf, hsize] at tfm
            rw [htypes] at tqs tproc tign
            rw [hdir] at tqs
            refine ⟨⟨tbuf.trans hbuf, tsize.trans hsize, tlen.trans hlen, ttypes.trans htypes,
              tdir.trans hdir, treads.trans hreads, twaits.trans hwaits⟩, off :: offs, r :: rs,
              ps ++ qs, ?_, ?_, ?_, ?_, ?_, ?_, ?_⟩
            · rw [tvis, hvis]; simp
            · simp [hr, tfm]
            · simp [tlen2]
            · rw [tlog, hlog]; simp
            · have hsplit : (r :: rs).filter (accepted s.file_types_)
                  = [r].filter (accepted s.file_types_) ++ rs.filter (accepted s.file_types_) := by
                rw [← List.filter_append]; rfl
              rw [hsplit, List.map_append, List.map_append, hps, tqs]
            · rw [tproc, hproc]
              cases hacc : accepted s.file_types_ r
              · simp [hacc]
              · simp [hacc]; omega
            · rw [tign, hign]
              cases hacc : accepted s.file_types_ r
              · simp [hacc]; omega
              · simp [hacc]
    · have ht : t = s := (Run.ok.inj h).symm
      subst ht
      exact ⟨⟨rfl, rfl, rfl, rfl, rfl, rfl, rfl⟩, [], [], [], by simp, rfl, rfl, by simp, by simp,
        by simp, by simp⟩

/-- `eventSend`, when it returns: it returns `true` for a valid watcher after the
loop, `false` and the unchanged state for an invalid one. -/
theorem eventSend_ok (env : Env) (s t : DirectoryWatcher) (b : Bool)
    (h : s.eventSend env = .ok (b, t)) :
    (s.is_valid_ = true ∧ b = true
        ∧ DirectoryWatcher.eventSendLoop env (s.event_buf_size + 1) 0 s = .ok t)
      ∨ (s.is_valid_ = false ∧ b = false ∧ t = s) := by
  unfold DirectoryWatcher.eventSend at h
  split at h
  · rename_i hv
    left
    cases hl : DirectoryWatcher.eventSendLoop env (s.event_buf_size + 1) 0 s with
    | ok u =>
      rw [hl] at h
      simp only [Run.bind, Run.ok.injEq, Prod.mk.injEq] at h
      exact ⟨hv, h.1.symm, by rw [h.2]⟩
    | undefinedBehaviour => rw [hl] at h; simp [Run.bind] at h
    | outOfFuel => rw [hl] at h; simp [Run.bind] at h
    | exception => rw [hl] at h; simp [Run.bind] at h
  · rename_i hv
    right
    simp only [Run.ok.injEq, Prod.mk.injEq] at h
    exact ⟨by simpa using hv, h.1.symm, h.2.symm⟩

/-- C3, on the code: the loop condition of `eventSend` does not depend on where `buf`
stands, and `FileNameLength` is not checked, so a record that declares its extent
beyond the filled length is followed. With 24 bytes filled and a first record that
points to byte 48, the stale record at byte 48 is visited and reported to the
callback; with 16 bytes filled and a name of 20 bytes at byte 12, the whole name is
read; with a first record that points to byte 70000 the next read leaves the 64 KiB
vector. -/
theorem eventSend_reads_past_ready_length :
    (∀ off len : Nat,
        off + sizeof_FILE_NOTIFY_INFORMATION * sizeof_FILE_NOTIFY_INFORMATION
            ≤ off + len * sizeof_FILE_NOTIFY_INFORMATION
          ↔ sizeof_FILE_NOTIFY_INFORMATION ≤ len)
      ∧ (∃ t : DirectoryWatcher,
          (watcherWith [str "dat"] staleBytes 24).eventSend quietEnv = .ok (true, t)
            ∧ t.visited = [0, 48]
            ∧ t.callback_log = [str "D\\a.dat", str "D\\old.dat"]
            ∧ t.processed_files_count = 2)
      ∧ (∃ t : DirectoryWatcher,
          (watcherWith [str "dat"] cutBytes 16).eventSend quietEnv = .ok (true, t)
            ∧ t.visited = [0]
            ∧ t.callback_log = [str "D\\report.dat"])
      ∧ (watcherWith [str "dat"] wildBytes 24).eventSend quietEnv = .undefinedBehaviour := by
  refine ⟨?_, ⟨_, rfl, rfl, rfl, rfl⟩, ⟨_, rfl, rfl, rfl⟩, rfl⟩
  intro off len
  simp only [sizeof_FILE_NOTIFY_INFORMATION]
  omega

/-! ## Validity and the loops of `watch` -/

theorem eventRecv_invalid (env : Env) (s : DirectoryWatcher) (h : s.is_valid_ = false) :
    (s.eventRecv env).2.is_valid_ = false := by
  unfold DirectoryWatcher.eventRecv
  simp only
  split
  · exact h
  · split
    · rfl
    · exact h

theorem dispatch_invalid (env : Env) (s : DirectoryWatcher) (r : FILE_NOTIFY_INFORMATION)
    (h : s.is_valid_ = false) : (s.dispatch env r).is_valid_ = false := by
  unfold DirectoryWatcher.dispatch
  simp only
  split
  · split
    · simp [h]
    · exact h
  · exact h

theorem eventSend_invalid (env : Env) (s : DirectoryWatcher) (h : s.is_valid_ = false) :
    s.eventSend env = .ok (false, s) := by
  simp [DirectoryWatcher.eventSend, h]

theorem watchDrain_stopped (env : Env) (fuel : Nat) (s : DirectoryWatcher)
    (h : (s.is_valid_ && s.hasEvent) = false) : s.watchDrain env fuel = .ok s := by
  cases fuel <;> simp [DirectoryWatcher.watchDrain, h]

theorem handleEvents_stopped (env : Env) (fuel : Nat) (s : DirectoryWatcher)
    (h : (s.is_valid_ && s.hasEvent) = false) : s.handleEvents env fuel = .ok s := by
  cases fuel <;> simp [DirectoryWatcher.handleEvents, h]

theorem watchLoop_invalid (env : Env) (inner fuel : Nat) (s : DirectoryWatcher)
    (h : s.is_valid_ = false) : s.watchLoop env inner fuel = .ok s := by
  cases fuel <;> simp [DirectoryWatcher.watchLoop, h]

theorem watch_invalid (env : Env) (fuel : Nat) (s : DirectoryWatcher)
    (h : s.is_valid_ = false) : s.watch env fuel = .ok (false, s) := by
  simp [DirectoryWatcher.watch, h]

theorem Op.run_invalid (env : Env) (op : Op) (s : DirectoryWatcher) (h : s.is_valid_ = false) :
    ∃ t, op.run env s = .ok t ∧ t.is_valid_ = false := by
  cases op with
  | watch fuel => exact ⟨s, by simp [Op.run, watch_invalid env fuel s h, Run.bind], h⟩
  | stop => exact ⟨s.stop, rfl, rfl⟩
  | eventRecv => exact ⟨_, rfl, eventRecv_invalid env s h⟩
  | eventSend => exact ⟨s, by simp [Op.run, eventSend_invalid env s h, Run.bind], h⟩
  | handleEvents fuel =>
    exact ⟨s, by simp [Op.run, handleEvents_stopped env fuel s (by simp [h])], h⟩
  | dispatch r => exact ⟨_, rfl, dispatch_invalid env s r h⟩
  | completion c => exact ⟨_, rfl, h⟩

theorem runOps_invalid (env : Env) (ops : List Op) :
    ∀ s : DirectoryWatcher, s.is_valid_ = false →
      ∃ t, runOps env ops s = .ok t ∧ t.is_valid_ = false := by
  induction ops with
  | nil => intro s h; exact ⟨s, rfl, h⟩
  | cons op ops ih =>
    intro s h
    obtain ⟨t, ht, hv⟩ := Op.run_invalid env op s h
    obtain ⟨u, hu, hw⟩ := ih t hv
    exact ⟨u, by simp [runOps, ht, Run.bind, hu], hw⟩

theorem runOps_append (env : Env) (ops1 ops2 : List Op) :
    ∀ s : DirectoryWatcher,
      runOps env (ops1 ++ ops2) s = (runOps env ops1 s).bind (runOps env ops2) := by
  induction ops1 with
  | nil => intro s; rfl
  | cons op ops ih =>
    intro s
    simp only [List.cons_append, runOps]
    cases op.run env s with
    | ok t => simp [Run.bind, ih t]
    | undefinedBehaviour => rfl
    | outOfFuel => rfl
    | exception => rfl

/-- C6: when `CreateFileA` fails in the constructor the instance is invalid
(`operator bool` gives `false`); and `watch()` on an instance whose `is_valid_` is
false returns `false` with the state unchanged, so no read was requested, nothing was
waited for, the callback was not invoked, and the counters and the ready length are
what they were. -/
theorem watch_invalid_returns_false (os : Acquisition) (input_directory : Path)
    (file_types : List (List Nat)) (env : Env) (fuel : Nat) (s : DirectoryWatcher) :
    (os.CreateFileA = INVALID_HANDLE_VALUE →
        (DirectoryWatcher.construct os input_directory file_types).toBool = false)
      ∧ (s.is_valid_ = false → s.watch env fuel = .ok (false, s)) := by
  refine ⟨?_, watch_invalid env fuel s⟩
  intro h
  simp [DirectoryWatcher.construct, DirectoryWatcher.toBool, h]

/-- C6, at a watcher whose directory could not be opened. -/
theorem watch_invalid_returns_false_witness :
    (DirectoryWatcher.construct
        { CreateFileA := INVALID_HANDLE_VALUE, newPort := 12, bindPort := 12 }
        (str "D") [str "dat"]).toBool = false
      ∧ (DirectoryWatcher.construct
          { CreateFileA := INVALID_HANDLE_VALUE, newPort := 12, bindPort := 12 }
          (str "D") [str "dat"]).watch immediateEnv 7
        = .ok (false, DirectoryWatcher.construct
            { CreateFileA := INVALID_HANDLE_VALUE, newPort := 12, bindPort := 12 }
            (str "D") [str "dat"]) :=
  ⟨(watch_invalid_returns_false
      { CreateFileA := INVALID_HANDLE_VALUE, newPort := 12, bindPort := 12 }
      (str "D") [str "dat"] immediateEnv 7 (watcherWith [] [] 0)).1 rfl,
    (watch_invalid_returns_false
      { CreateFileA := INVALID_HANDLE_VALUE, newPort := 12, bindPort := 12 }
      (str "D") [str "dat"] immediateEnv 7
      (DirectoryWatcher.construct
        { CreateFileA := INVALID_HANDLE_VALUE, newPort := 12, bindPort := 12 }
        (str "D") [str "dat"])).2 rfl⟩

/-- C8: validity is monotone. Once `is_valid_` is false after some operations, every
further sequence of operations (`watch`, `stop`, `eventRecv`, `eventSend`,
`handleEvents`, a record dispatched to the callback, a completion stored) runs to
its end and leaves `is_valid_` false; and no single operation turns an invalid
watcher into a valid one. -/
theorem validity_is_monotone (env : Env) (ops1 ops2 : List Op) (s s1 : DirectoryWatcher)
    (h1 : runOps env ops1 s = .ok s1) (hinv : s1.is_valid_ = false) :
    (∃ s2, runOps env (ops1 ++ ops2) s = .ok s2 ∧ s2.is_valid_ = false)
      ∧ (∀ (op : Op) (u t : DirectoryWatcher),
          op.run env u = .ok t → t.is_valid_ = true → u.is_valid_ = true) := by
  constructor
  · obtain ⟨s2, h2, hv⟩ := runOps_invalid env ops2 s1 hinv
    exact ⟨s2, by rw [runOps_append, h1]; exact h2, hv⟩
  · intro op u t hrun ht
    cases hu : u.is_valid_ with
    | true => rfl
    | false =>
      obtain ⟨t', ht', hv⟩ := Op.run_invalid env op u hu
      rw [hrun] at ht'
      rw [Run.ok.inj ht', hv] at ht
      exact Bool.noConfusion ht

/-- C8, at a valid watcher that is stopped and then asked to watch, receive, send and
handle events again. -/
theorem validity_is_monotone_witness :
    (∃ s2, runOps immediateEnv
        ([Op.stop] ++ [Op.watch 5, Op.eventRecv, Op.eventSend, Op.handleEvents 3])
        (watcherWith [str "dat"] scenarioBytes 94) = .ok s2 ∧ s2.is_valid_ = false)
      ∧ (∀ (op : Op) (u t : DirectoryWatcher),
          op.run immediateEnv u = .ok t → t.is_valid_ = true → u.is_valid_ = true) :=
  validity_is_monotone immediateEnv [Op.stop]
    [Op.watch 5, Op.eventRecv, Op.eventSend, Op.handleEvents 3]
    (watcherWith [str "dat"] scenarioBytes 94)
    (watcherWith [str "dat"] scenarioBytes 94).stop rfl rfl

/-! ## Read requests that do not complete -/

theorem eventRecv_pending (env : Env) (s : DirectoryWatcher)
    (hfail : (env.ReadDirectoryChangesW s.reads_issued).read_ok = false)
    (hpend : (env.ReadDirectoryChangesW s.reads_issued).last_error = ERROR_IO_PENDING) :
    (s.eventRecv env).1 = false ∧ (s.eventRecv env).2.is_valid_ = false
      ∧ (s.eventRecv env).2.event_buf_len_ready_ = 0
      ∧ (s.eventRecv env).2.reads_issued = s.reads_issued + 1
      ∧ (s.eventRecv env).2.waits_issued = s.waits_issued
      ∧ (s.eventRecv env).2.callback_log = s.callback_log := by
  unfold DirectoryWatcher.eventRecv
  simp [hfail, hpend]

/-- C10: a read request that the system answers with `ERROR_IO_PENDING` is treated as
fatal. `eventRecv` returns `false` with `is_valid_` false and the ready length zero.
A `watch()` that was valid on entry and whose first read is answered so returns
`true` in the state right after that `eventRecv`: no record is sent and nothing is
waited for. The same holds inside the loops: from the state after such an
`eventRecv` both `handleEvents` and the wait loop return at once, and a wait loop
iteration that completes with length zero and re-issues the read ends the loop. -/
theorem eventRecv_pending_is_fatal (env : Env) (fuel : Nat) (s : DirectoryWatcher)
    (hfail : (env.ReadDirectoryChangesW s.reads_issued).read_ok = false)
    (hpend : (env.ReadDirectoryChangesW s.reads_issued).last_error = ERROR_IO_PENDING) :
    ((s.eventRecv env).1 = false ∧ (s.eventRecv env).2.is_valid_ = false
        ∧ (s.eventRecv env).2.event_buf_len_ready_ = 0)
      ∧ (s.is_valid_ = true → s.watch env fuel = .ok (true, (s.eventRecv env).2))
      ∧ ((s.eventRecv env).2.reads_issued = s.reads_issued + 1
        ∧ (s.eventRecv env).2.waits_issued = s.waits_issued
        ∧ (s.eventRecv env).2.callback_log = s.callback_log)
      ∧ (s.eventRecv env).2.handleEvents env fuel = .ok (s.eventRecv env).2
      ∧ (∀ inner : Nat, (s.eventRecv env).2.watchLoop env inner fuel = .ok (s.eventRecv env).2)
      ∧ (∀ (inner : Nat) (s0 : DirectoryWatcher), s0.is_valid_ = true →
          (env.GetQueuedCompletionStatus s0.waits_issued).complete = true →
          (env.GetQueuedCompletionStatus s0.waits_issued).bytes = some 0 →
          s0.completion (env.GetQueuedCompletionStatus s0.waits_issued) = s →
          s0.watchLoop env inner (fuel + 1) = .ok (s.eventRecv env).2) := by
  obtain ⟨h1, h2, h3, h4, h5, h6⟩ := eventRecv_pending env s hfail hpend
  have hhandle : ∀ f : Nat, (s.eventRecv env).2.handleEvents env f = .ok (s.eventRecv env).2 :=
    fun f => handleEvents_stopped env f _ (by simp [h2])
  have hloop : ∀ inner f : Nat,
      (s.eventRecv env).2.watchLoop env inner f = .ok (s.eventRecv env).2 :=
    fun inner f => watchLoop_invalid env inner f _ h2
  refine ⟨⟨h1, h2, h3⟩, ?_, ⟨h4, h5, h6⟩, hhandle fuel, fun inner => hloop inner fuel, ?_⟩
  · intro hv
    unfold DirectoryWatcher.watch
    simp only [hv, if_true]
    rw [watchDrain_stopped env fuel _ (by simp [h2])]
    simp only [Run.bind]
    rw [hloop fuel fuel]
  · intro inner s0 hv hc hb hs
    unfold DirectoryWatcher.watchLoop
    simp only [hv, if_true]
    have hlen : s.event_buf_len_ready_ = 0 := by
      rw [← hs]
      simp [DirectoryWatcher.completion, hb]
    have hw : s0.waitOnce env inner = .ok (s.eventRecv env).2 := by
      unfold DirectoryWatcher.waitOnce
      simp only [hs, hc, hlen, Bool.true_and, beq_self_eq_true, if_true]
      split
      · exact hhandle inner
      · rfl
    rw [hw]
    simp only [Run.bind]
    exact hloop inner fuel

/-- C10, at a valid watcher in an environment that answers every read with
`ERROR_IO_PENDING`. -/
theorem eventRecv_pending_is_fatal_witness :
    (watcherWith [str "dat"] [] 0).is_valid_ = true
      ∧ (watcherWith [str "dat"] [] 0).watch pendingEnv 9
          = .ok (true, ((watcherWith [str "dat"] [] 0).eventRecv pendingEnv).2)
      ∧ ((watcherWith [str "dat"] [] 0).eventRecv pendingEnv).2.is_valid_ = false :=
  ⟨rfl,
    (eventRecv_pending_is_fatal pendingEnv 9 (watcherWith [str "dat"] [] 0) rfl rfl).2.1 rfl,
    (eventRecv_pending_is_fatal pendingEnv 9 (watcherWith [str "dat"] [] 0) rfl rfl).1.2.1⟩

theorem waitOnce_timeout (env : Env) (inner : Nat) (s : DirectoryWatcher)
    (h : (env.GetQueuedCompletionStatus s.waits_issued).complete = false) :
    s.waitOnce env inner = .ok (s.completion (env.GetQueuedCompletionStatus s.waits_issued)) := by
  unfold DirectoryWatcher.waitOnce
  simp [h]

/-- While every wait times out, a valid watcher never leaves the wait loop. -/
theorem watchLoop_timeouts (env : Env) (inner : Nat)
    (h : ∀ k, (env.GetQueuedCompletionStatus k).complete = false) :
    ∀ (fuel : Nat) (s : DirectoryWatcher), s.is_valid_ = true →
      s.watchLoop env inner fuel = .outOfFuel := by
  intro fuel
  induction fuel with
  | zero => intro s hv; simp [DirectoryWatcher.watchLoop, hv]
  | succ n ih =>
    intro s hv
    unfold DirectoryWatcher.watchLoop
    simp only [hv, if_true]
    rw [waitOnce_timeout env inner s (h _)]
    simp only [Run.bind]
    exact ih _ hv

/-- C7, on the code: a read request rejected with `ERROR_ACCESS_DENIED` makes
`eventRecv` return `false` but leaves `is_valid_` true, and `watch()` then stays in
its wait loop with no read armed: while the waits time out it does not return,
whatever the number of iterations allowed. -/
theorem eventRecv_rejected_stays_valid :
    ((watcherWith [str "dat"] [] 0).eventRecv deniedEnv).1 = false
      ∧ ((watcherWith [str "dat"] [] 0).eventRecv deniedEnv).2.is_valid_ = true
      ∧ ∀ fuel : Nat, (watcherWith [str "dat"] [] 0).watch deniedEnv fuel = .outOfFuel := by
  refine ⟨rfl, rfl, ?_⟩
  intro fuel
  unfold DirectoryWatcher.watch
  have hv : (watcherWith [str "dat"] [] 0).is_valid_ = true := rfl
  simp only [hv, if_true]
  rw [watchDrain_stopped deniedEnv fuel ((watcherWith [str "dat"] [] 0).eventRecv deniedEnv).2 rfl]
  simp only [Run.bind]
  rw [watchLoop_timeouts deniedEnv fuel (fun _ => rfl) fuel
    ((watcherWith [str "dat"] [] 0).eventRecv deniedEnv).2 rfl]

/-! ## The first loop of `watch` -/

theorem dispatch_valid (env : Env) (h : ∀ k p, env.callback_stops k p = false)
    (s : DirectoryWatcher) (r : FILE_NOTIFY_INFORMATION) :
    (s.dispatch env r).is_valid_ = s.is_valid_ := by
  unfold DirectoryWatcher.dispatch
  simp only
  split
  · split
    · simp [h]
    · rfl
  · rfl

theorem eventSendLoop_valid (env : Env) (h : ∀ k p, env.callback_stops k p = false) :
    ∀ (fuel off : Nat) (s t : DirectoryWatcher),
      DirectoryWatcher.eventSendLoop env fuel off s = .ok t → t.is_valid_ = s.is_valid_ := by
  intro fuel
  induction fuel with
  | zero => intro off s t ht; simp [DirectoryWatcher.eventSendLoop] at ht
  | succ n ih =>
    intro off s t ht
    unfold DirectoryWatcher.eventSendLoop at ht
    split at ht
    · cases hr : readRecord s.event_buf_ s.event_buf_size off with
      | none => simp [hr] at ht
      | some r =>
        simp only [hr] at ht
        have hd := dispatch_valid env h { s with visited := s.visited ++ [off] } r
        simp only at hd
        split at ht
        · exact Run.noConfusion ht
        · split at ht
          · rw [← Run.ok.inj ht, hd]
          · rw [ih _ _ _ ht, hd]
    · rw [← Run.ok.inj ht]

/-- With a callback that never calls `stop()`, the first loop of `watch` never
finishes once it is entered: `eventSend` changes neither `is_valid_` nor the ready
length. -/
theorem watchDrain_never_returns (env : Env) (h : ∀ k p, env.callback_stops k p = false) :
    ∀ (fuel : Nat) (s t : DirectoryWatcher), s.is_valid_ = true → s.hasEvent = true →
      s.watchDrain env fuel ≠ .ok t := by
  intro fuel
  induction fuel with
  | zero => intro s t hv he; simp [DirectoryWatcher.watchDrain, hv, he]
  | succ n ih =>
    intro s t hv he
    unfold DirectoryWatcher.watchDrain
    simp only [hv, he, Bool.and_self, if_true]
    cases hs : s.eventSend env with
    | ok r =>
      obtain ⟨b, u⟩ := r
      simp only [Run.bind]
      rcases eventSend_ok env s u b hs with ⟨_, _, hl⟩ | ⟨hinv, _, _⟩
      · have hvu : u.is_valid_ = true := by rw [eventSendLoop_valid env h _ _ _ _ hl, hv]
        have hlen := (eventSendLoop_spec env _ _ _ _ hl).1.2.2.1
        have heu : u.hasEvent = true := by
          simpa [DirectoryWatcher.hasEvent, hlen] using he
        exact ih u t hvu heu
      · rw [hv] at hinv
        exact Bool.noConfusion hinv
    | undefinedBehaviour => simp [Run.bind]
    | outOfFuel => simp [Run.bind]
    | exception => simp [Run.bind]

/-- One call of `eventSend` on a buffer whose first record is the last one. -/
theorem eventSend_single_record (env : Env) (s : DirectoryWatcher) (r : FILE_NOTIFY_INFORMATION)
    (hv : s.is_valid_ = true) (hlen : 16 ≤ s.event_buf_len_ready_)
    (hr : readRecord s.event_buf_ s.event_buf_size 0 = some r) (hn : r.NextEntryOffset = 0)
    (ht : s.throws env r = false) :
    s.eventSend env = .ok (true, DirectoryWatcher.dispatch env { s with visited := s.visited ++ [0] } r) := by
  unfold DirectoryWatcher.eventSend
  rw [if_pos hv]
  unfold DirectoryWatcher.eventSendLoop
  have hc : 0 + sizeof_FILE_NOTIFY_INFORMATION * sizeof_FILE_NOTIFY_INFORMATION
      ≤ 0 + s.event_buf_len_ready_ * sizeof_FILE_NOTIFY_INFORMATION := by
    simp only [sizeof_FILE_NOTIFY_INFORMATION]
    omega
  rw [if_pos hc]
  simp only [hr, hn, ht, Bool.false_eq_true, if_false, if_true, Run.bind]

/-- The first loop of `watch` on a buffer with one accepted record and a callback
that never calls `stop()`: the loop is still running after any number of iterations,
and `n` iterations of its body report the record `n` times. -/
theorem watchDrain_single_record (env : Env) (h : ∀ k p, env.callback_stops k p = false)
    (r : FILE_NOTIFY_INFORMATION) (p : List Nat) (hn : r.NextEntryOffset = 0) :
    ∀ (n : Nat) (s : DirectoryWatcher), s.is_valid_ = true → 16 ≤ s.event_buf_len_ready_ →
      readRecord s.event_buf_ s.event_buf_size 0 = some r → accepted s.file_types_ r = true →
      path_string env (pathJoin s.input_directory_ r.FileName) = some p →
      s.watchDrain env n = .outOfFuel
        ∧ ∃ t, eventSendTimes env n s = .ok t
          ∧ t.processed_files_count = s.processed_files_count + n
          ∧ t.callback_log = s.callback_log ++ List.replicate n p
          ∧ t.is_valid_ = true ∧ t.hasEvent = true ∧ t.waits_issued = s.waits_issued := by
  intro n
  induction n with
  | zero =>
    intro s hv hlen hr hacc hp
    have he : s.hasEvent = true := by
      simp only [DirectoryWatcher.hasEvent, bne_iff_ne, ne_eq]
      omega
    exact ⟨by simp [DirectoryWatcher.watchDrain, hv, he], s, rfl, rfl, by simp, hv, he, rfl⟩
  | succ n ih =>
    intro s hv hlen hr hacc hp
    have he : s.hasEvent = true := by
      simp only [DirectoryWatcher.hasEvent, bne_iff_ne, ne_eq]
      omega
    have hthrow : s.throws env r = false := by
      rw [throws_eq, hp]
      simp
    have hs := eventSend_single_record env s r hv hlen hr hn hthrow
    obtain ⟨hbuf, hsize, hl, htypes, hdir, _, _, hwaits⟩ :=
      dispatch_frame env { s with visited := s.visited ++ [0] } r
    have hvd := dispatch_valid env h { s with visited := s.visited ++ [0] } r
    have hd := dispatch_accepted env { s with visited := s.visited ++ [0] } r p hacc hp
    have hlog : (DirectoryWatcher.dispatch env { s with visited := s.visited ++ [0] } r).callback_log
        = s.callback_log ++ [p] := by rw [hd]
    have hproc : (DirectoryWatcher.dispatch env
        { s with visited := s.visited ++ [0] } r).processed_files_count
        = s.processed_files_count + 1 := by rw [hd]
    simp only at hbuf hsize hl htypes hdir hwaits hvd
    obtain ⟨hdiv, t, ht, htp, htl, htv, hte, htw⟩ :=
      ih (DirectoryWatcher.dispatch env { s with visited := s.visited ++ [0] } r)
        (by rw [hvd, hv]) (by rw [hl]; exact hlen) (by rw [hbuf, hsize]; exact hr)
        (by rw [htypes]; exact hacc) (by rw [hdir]; exact hp)
    constructor
    · unfold DirectoryWatcher.watchDrain
      have hcnd : (s.is_valid_ && s.hasEvent) = true := by simp [hv, he]
      rw [if_pos hcnd, hs]
      exact hdiv
    · refine ⟨t, ?_, ?_, ?_, htv, hte, ?_⟩
      · simp only [eventSendTimes, hs, Run.bind]
        exact ht
      · rw [htp, hproc]
        omega
      · rw [htl, hlog]
        simp [List.replicate_succ]
      · rw [htw, hwaits]

/-- C9, on the code: when the initial read of `watch()` completes at once with a
non-zero length, the first loop of `watch` calls `eventSend` again and again on the
same buffer, because nothing resets the ready length. With one record `a.dat` in the
buffer and a callback that never calls `stop()`, `watch()` is still in that loop
after any number of iterations, `n` iterations invoke the callback `n` times for
`D\a.dat`, and no wait is ever issued. -/
theorem watch_initial_drain_never_finishes :
    (((watcherWith [str "dat"] [] 0).eventRecv immediateEnv).1 = true
        ∧ ((watcherWith [str "dat"] [] 0).eventRecv immediateEnv).2.event_buf_len_ready_ = 22)
      ∧ (∀ fuel : Nat, (watcherWith [str "dat"] [] 0).watch immediateEnv fuel = .outOfFuel)
      ∧ (∀ n : Nat, ∃ t,
          eventSendTimes immediateEnv n ((watcherWith [str "dat"] [] 0).eventRecv immediateEnv).2
              = .ok t
            ∧ t.processed_files_count = n
            ∧ t.callback_log = List.replicate n (str "D\\a.dat")
            ∧ t.is_valid_ = true ∧ t.hasEvent = true ∧ t.waits_issued = 0) := by
  have key := fun n => watchDrain_single_record immediateEnv (fun _ _ => rfl)
    { NextEntryOffset := 0, Action := FILE_ACTION_ADDED, FileNameLength := 10,
      FileName := str "a.dat" } (str "D\\a.dat") rfl n
    ((watcherWith [str "dat"] [] 0).eventRecv immediateEnv).2 rfl (by decide) rfl (by decide)
    (by decide)
  refine ⟨⟨rfl, rfl⟩, ?_, ?_⟩
  · intro fuel
    unfold DirectoryWatcher.watch
    have hv : (watcherWith [str "dat"] [] 0).is_valid_ = true := rfl
    simp only [hv, if_true]
    rw [(key fuel).1]
    rfl
  · intro n
    obtain ⟨t, ht, hp, hl, hv, he, hw⟩ := (key n).2
    refine ⟨t, ht, ?_, ?_, hv, he, ?_⟩
    · rw [hp]
      show 0 + n = n
      omega
    · rw [hl]
      rfl
    · rw [hw]
      rfl

end DirWatcher
